import Mathlib

set_option maxHeartbeats 1000000

/-!
Verification development for the OpenDental MCP bridge (`src/index.ts`) and its
presentation widgets (`src/resources/patient-list.tsx`, `patient-chart.tsx`,
`patient-report.tsx`).  The TypeScript code is shallowly embedded: parsed JSON
bodies become the inductive `JVal`, the tool handlers become pure functions
from a parsed body (or an `HttpResponse`) to a `ToolResult`, and the widget
state derivations (filter, sort, paginate, tooth-map) become pure Lean
functions over explicit state.
-/

/-- Parsed JSON values, as returned by `res.json()`.  JSON numbers are modelled
as integers (no claim depends on fractional or IEEE behaviour). -/
inductive JVal where
  | null : JVal
  | bool : Bool → JVal
  | num : Int → JVal
  | str : String → JVal
  | arr : List JVal → JVal
  | obj : List (String × JVal) → JVal

/-- JavaScript property access `o[k]` on a non-null(ish) value: `some v` when
`o` is an object with field `k`, otherwise `none` (JS `undefined`). -/
def jField : JVal → String → Option JVal
  | .obj fs, k => fs.lookup k
  | _, _ => none

/-- JavaScript truthiness of a parsed JSON value. -/
def truthy : JVal → Bool
  | .null => false
  | .bool b => b
  | .num n => n != 0
  | .str s => !s.isEmpty
  | .arr _ => true
  | .obj _ => true

/-- Whether the value is JSON `null`. -/
def isNullJ : JVal → Bool
  | .null => true
  | _ => false

/-- The envelope unwrap `json.data ?? json` (with `json` known non-null):
`??` falls back only when `json.data` is null or undefined. -/
def unwrapData (j : JVal) : JVal :=
  match jField j "data" with
  | none => j
  | some .null => j
  | some v => v

/-- The JS `.length` property as used by the handlers: defined for arrays and
strings, `undefined` (`none`) otherwise. -/
def jLength : JVal → Option JVal
  | .arr xs => some (.num xs.length)
  | .str s => some (.num s.length)
  | _ => none

/-- The pattern `x ?? []` on a possibly-missing field. -/
def orEmptyArr : Option JVal → JVal
  | none => .arr []
  | some .null => .arr []
  | some v => v

/-- The pattern `x ?? 0` on a possibly-missing field. -/
def orZero : Option JVal → JVal
  | none => .num 0
  | some .null => .num 0
  | some v => v

/-- Optional chaining `j.k1?.k2`: undefined as soon as `j.k1` is null or
undefined, otherwise the `k2` field of it. -/
def optChain2 (j : JVal) (k1 k2 : String) : Option JVal :=
  match jField j k1 with
  | none => none
  | some .null => none
  | some s => jField s k2

mutual

/-- String conversion of a JSON value as performed by JS template literals. -/
def jshow : JVal → String
  | .null => "null"
  | .bool true => "true"
  | .bool false => "false"
  | .num n => toString n
  | .str s => s
  | .arr xs => String.intercalate "," (jshowElems xs)
  | .obj _ => "[object Object]"

/-- Array elements under `Array.prototype.toString`; null elements render
empty. -/
def jshowElems : List JVal → List String
  | [] => []
  | .null :: xs => "" :: jshowElems xs
  | x :: xs => jshow x :: jshowElems xs

end

/-- Template interpolation of a possibly-undefined value. -/
def jshowOpt : Option JVal → String
  | none => "undefined"
  | some v => jshow v

/-- Result of one tool invocation: a widget payload with a text summary, or an
error message (`mcp-use`'s `widget`/`error`). -/
inductive ToolResult where
  | widgetOut : List (String × Option JVal) → String → ToolResult
  | errorOut : String → ToolResult

/-- Specific no-data message of the `get-patient-chart` handler. -/
def noChartMsg : String := "No chart data returned for this patient."

/-- Specific no-data message of the `get-reports` handler. -/
def noReportMsg : String := "No report data returned for this patient."

/-- Runtime message for reading `.data` off a null body (quotes elided). -/
def typeErrorMsg : String := "Cannot read properties of null (reading data)"

/-- Representative `res.json()` parse-failure message. -/
def parseErrorMsg : String := "Unexpected end of JSON input"

/-- Handler body of `get-patients` on a successfully parsed response `j`
(`src/index.ts` lines 71-92).  A null body makes `json.data` throw, which the
surrounding catch wraps with the generic prefix. -/
def getPatientsHandler (j : JVal) : ToolResult :=
  if isNullJ j then .errorOut ("Failed to fetch patients: " ++ typeErrorMsg)
  else
    let data := unwrapData j
    let patients : JVal := orEmptyArr (jField data "patients")
    let totalCount : Option JVal :=
      match jField data "total_count" with
      | none => jLength patients
      | some .null => jLength patients
      | some v => some v
    .widgetOut [("patients", some patients), ("totalCount", totalCount)]
      ("Found " ++ jshowOpt totalCount ++
        " patient(s). Use the table to browse or click a patient for details.")

/-- Summary line of the `get-patient-chart` widget output. -/
def chartSummaryText (patient_name : String) (chart : JVal) : String :=
  "Dental chart for " ++ patient_name ++ ": " ++
    jshow (orZero (optChain2 chart "summary" "total_teeth_with_work")) ++
    " teeth with work, " ++
    jshow (orZero (optChain2 chart "summary" "missing_teeth_count")) ++
    " missing."

/-- Handler body of `get-patient-chart` on a successfully parsed response
(`src/index.ts` lines 111-132). -/
def getPatientChartHandler (patient_name : String) (j : JVal) : ToolResult :=
  if isNullJ j then .errorOut ("Failed to fetch chart: " ++ typeErrorMsg)
  else
    let data := unwrapData j
    match jField data "patient_chart" with
    | none => .errorOut noChartMsg
    | some chart =>
      if truthy chart then
        .widgetOut [("chart", some chart), ("patientName", some (.str patient_name))]
          (chartSummaryText patient_name chart)
      else .errorOut noChartMsg

/-- Summary line of the `get-reports` widget output. -/
def reportSummaryText (patient_name : String) (report : JVal) : String :=
  "Report for " ++ patient_name ++ ": balance $" ++
    jshow (orZero (optChain2 report "summary" "total_outstanding_balance")) ++
    ", " ++
    jshow (orZero (optChain2 report "summary" "pending_insurance_claims")) ++
    " pending claims."

/-- Handler body of `get-reports` on a successfully parsed response
(`src/index.ts` lines 151-172). -/
def getReportsHandler (patient_name : String) (j : JVal) : ToolResult :=
  if isNullJ j then .errorOut ("Failed to fetch report: " ++ typeErrorMsg)
  else
    let data := unwrapData j
    match jField data "patient_report" with
    | none => .errorOut noReportMsg
    | some report =>
      if truthy report then
        .widgetOut [("report", some report), ("patientName", some (.str patient_name))]
          (reportSummaryText patient_name report)
      else .errorOut noReportMsg

/-- Backend HTTP response as observed by `callBackend`: status, status text and
parsed body (`none` = malformed JSON). -/
structure HttpResponse where
  status : Nat
  statusText : String
  body : Option JVal

/-- Embedding of `callBackend` (`src/index.ts` lines 30-56) after the fetch
resolved: `res.ok` means status in 200..299; otherwise it throws an error
carrying the status code and text; a body that fails to parse throws a parse
error. -/
def callBackend (r : HttpResponse) : Except String JVal :=
  if 200 ≤ r.status ∧ r.status ≤ 299 then
    match r.body with
    | some j => .ok j
    | none => .error parseErrorMsg
  else .error ("Backend returned " ++ toString r.status ++ ": " ++ r.statusText)

/-- Full `get-patients` tool on a backend response: backend call plus the
catch-wrapper of the handler. -/
def getPatientsTool (r : HttpResponse) : ToolResult :=
  match callBackend r with
  | .ok j => getPatientsHandler j
  | .error m => .errorOut ("Failed to fetch patients: " ++ m)

/-- Full `get-patient-chart` tool on a backend response. -/
def getPatientChartTool (patient_name : String) (r : HttpResponse) : ToolResult :=
  match callBackend r with
  | .ok j => getPatientChartHandler patient_name j
  | .error m => .errorOut ("Failed to fetch chart: " ++ m)

/-- Full `get-reports` tool on a backend response. -/
def getReportsTool (patient_name : String) (r : HttpResponse) : ToolResult :=
  match callBackend r with
  | .ok j => getReportsHandler patient_name j
  | .error m => .errorOut ("Failed to fetch report: " ++ m)

/-- Per-tool timeout table (`src/index.ts` lines 7-11). -/
def TOOL_TIMEOUTS : List (String × Nat) :=
  [("get-patients", 30 * 60000),
   ("get-patient-chart", 30 * 60000),
   ("get-reports", 30 * 60000)]

/-- Default timeout of `callBackend` (`src/index.ts` line 34), used when no
explicit timeout is passed; every tool passes its `TOOL_TIMEOUTS` entry. -/
def callBackendDefaultTimeout : Nat := 5 * 60000

/-- Timeout actually passed to `callBackend` by the named tool handler. -/
def invokedTimeout (tool : String) : Nat :=
  (TOOL_TIMEOUTS.lookup tool).getD callBackendDefaultTimeout

/-- Patient record as validated by the patient-list widget's zod schema
(`src/resources/patient-list.tsx` lines 10-21); nullable/optional fields are
`Option`s (JSON null and absence behave alike under `?? `/`||` here). -/
structure Patient where
  patient_id : Option Int
  first_name : String
  last_name : String
  age : Option Int
  wireless_phone : Option String
  home_phone : Option String
  work_phone : Option String
  address : Option String
  city : Option String
  status : Option String

/-- Embedding of JS `toLowerCase` on the basic-latin range (character-wise
`Char.toLower`, matching the data the widgets consume). -/
def lowerStr (s : String) : String := ⟨s.data.map Char.toLower⟩

/-- Embedding of JS `String.prototype.includes`: the query occurs as a
contiguous substring. -/
def strIncludes (hay q : String) : Bool := decide (q.data <:+: hay.data)

/-- JS `||` chain over possibly-empty optional strings (first truthy wins). -/
def orTruthy (o : Option String) (alt : String) : String :=
  match o with
  | some s => if s.isEmpty then alt else s
  | none => alt

/-- First available phone, `p.wireless_phone || p.home_phone || p.work_phone
|| ""` (`patient-list.tsx` line 77). -/
def firstPhone (p : Patient) : String :=
  orTruthy p.wireless_phone (orTruthy p.home_phone (orTruthy p.work_phone ""))

/-- Search predicate of the patient-list filter (`patient-list.tsx` lines
76-83); `q` is the already-lowercased query. -/
def matchesSearch (q : String) (p : Patient) : Bool :=
  q.isEmpty ||
    strIncludes (lowerStr (p.first_name ++ " " ++ p.last_name)) q ||
    strIncludes (lowerStr (p.city.getD "")) q ||
    strIncludes (lowerStr (firstPhone p)) q

/-- The `filtered` memo (`patient-list.tsx` lines 73-85). -/
def filteredList (patients : List Patient) (search : String) : List Patient :=
  patients.filter (matchesSearch (lowerStr search))

/-- Sort keys of the patient-list widget. -/
inductive SKey where
  | last_name | first_name | age | city | status
deriving DecidableEq

/-- Sort directions. -/
inductive SDir where
  | asc | desc
deriving DecidableEq

/-- String sort key `(a[sortKey] ?? "").toString().toLowerCase()`
(`patient-list.tsx` lines 95-96); the `age` case is handled numerically and
never reaches this function. -/
def keyStr (k : SKey) (p : Patient) : String :=
  match k with
  | .last_name => lowerStr p.last_name
  | .first_name => lowerStr p.first_name
  | .city => lowerStr (p.city.getD "")
  | .status => lowerStr (p.status.getD "")
  | .age => ""

/-- Numeric sort key `a.age ?? 0` (`patient-list.tsx` lines 92-93). -/
def ageNum (p : Patient) : Int := p.age.getD 0

/-- Ascending comparator order induced by the comparator of the `sorted` memo
(`patient-list.tsx` lines 88-101): `a` precedes-or-ties `b` iff the comparator
does not return a positive number on `(a, b)`. -/
def sortLeAsc (k : SKey) (a b : Patient) : Prop :=
  match k with
  | .age => ageNum a ≤ ageNum b
  | k => keyStr k a ≤ keyStr k b

/-- Order used by the sort after applying the direction sign
(`patient-list.tsx` lines 98-99). -/
def sortLe (k : SKey) (d : SDir) (a b : Patient) : Prop :=
  match d with
  | .asc => sortLeAsc k a b
  | .desc => sortLeAsc k b a

instance sortLeAscDec (k : SKey) : DecidableRel (sortLeAsc k) := fun a b => by
  unfold sortLeAsc
  cases k <;> dsimp only <;> infer_instance

instance sortLeDec (k : SKey) (d : SDir) : DecidableRel (sortLe k d) := fun a b => by
  unfold sortLe
  cases d <;> dsimp only <;> infer_instance

instance sortLeTotal (k : SKey) (d : SDir) : IsTotal Patient (sortLe k d) where
  total a b := by
    unfold sortLe sortLeAsc
    cases d <;> cases k <;> dsimp only <;> exact le_total _ _

instance sortLeTrans (k : SKey) (d : SDir) : IsTrans Patient (sortLe k d) where
  trans a b c h1 h2 := by
    unfold sortLe sortLeAsc at h1 h2 ⊢
    cases d <;> cases k <;> dsimp only at h1 h2 ⊢ <;>
      first
      | exact le_trans h1 h2
      | exact le_trans h2 h1

/-- The `sorted` memo (`patient-list.tsx` lines 87-102): `[...filtered].sort`
with the key comparator.  `Array.prototype.sort` is stable and its comparator
returns a non-positive number on `(a, b)` exactly when `sortLe` holds, so the
result is the stable insertion sort under `sortLe`. -/
def sortedList (k : SKey) (d : SDir) (l : List Patient) : List Patient :=
  l.insertionSort (sortLe k d)

/-- Page size of the patient-list widget (`patient-list.tsx` line 62). -/
def PAGE_SIZE : Nat := 10

/-- The `totalPages` derivation `Math.max(1, Math.ceil(n / ps))`
(`patient-list.tsx` line 104, `patient-report.tsx` line 332). -/
def totalPages (n ps : Nat) : Nat := max 1 ((n + ps - 1) / ps)

/-- The `safePage` derivation `Math.min(page, totalPages)`
(`patient-list.tsx` line 105, `patient-report.tsx` line 333). -/
def safePage (page n ps : Nat) : Nat := min page (totalPages n ps)

/-- Page states reachable through the widgets' page-change operations: the
initial `useState(1)`, the search-reset `setPage(1)`, and the Prev/Next
buttons, which fire from the clamped page and are enabled only inside the
range; the visible result count `n` may change arbitrarily between clicks. -/
inductive ReachPage (ps : Nat) : Nat → Prop where
  | init : ReachPage ps 1
  | reset (p : Nat) : ReachPage ps p → ReachPage ps 1
  | prev (p n : Nat) : ReachPage ps p → 1 < safePage p n ps →
      ReachPage ps (safePage p n ps - 1)
  | next (p n : Nat) : ReachPage ps p → safePage p n ps < totalPages n ps →
      ReachPage ps (safePage p n ps + 1)

/-- The `toggleSort` handler (`patient-list.tsx` lines 111-118) acting on the
`(sortKey, sortDir)` state. -/
def flipDir : SDir → SDir
  | .asc => .desc
  | .desc => .asc

/-- Clicking column `key` with current state `st`. -/
def toggleSort (st : SKey × SDir) (key : SKey) : SKey × SDir :=
  if st.1 = key then (st.1, flipDir st.2) else (key, .asc)

/-- Color palette of the chart widget's `useColors`
(`src/resources/patient-chart.tsx` lines 27-51), as a function of the theme. -/
structure ChartColors where
  bg : String
  card : String
  text : String
  textSecondary : String
  border : String
  accent : String
  headerBg : String
  inputBg : String
  tabActive : String
  tabInactive : String
  healthy : String
  missing : String
  crown : String
  filling : String
  decay : String
  rootCanal : String
  implant : String
  other : String

/-- The `useColors` hook of the chart widget, with `dark = (theme === "dark")`. -/
def useColorsChart (dark : Bool) : ChartColors where
  bg := if dark then "#1a1a2e" else "#ffffff"
  card := if dark then "#16213e" else "#f8f9fa"
  text := if dark then "#e0e0e0" else "#1a1a1a"
  textSecondary := if dark then "#a0a0a0" else "#666666"
  border := if dark then "#2a2a4a" else "#e0e0e0"
  accent := if dark then "#4a9eff" else "#0066cc"
  headerBg := if dark then "#0f3460" else "#f0f4f8"
  inputBg := if dark then "#0f1b30" else "#ffffff"
  tabActive := if dark then "#4a9eff" else "#0066cc"
  tabInactive := if dark then "#2a2a4a" else "#e9ecef"
  healthy := if dark then "#2d6a4f" else "#28a745"
  missing := if dark then "#6c757d" else "#adb5bd"
  crown := if dark then "#2563eb" else "#007bff"
  filling := if dark then "#ca8a04" else "#ffc107"
  decay := if dark then "#dc2626" else "#dc3545"
  rootCanal := if dark then "#7c3aed" else "#6f42c1"
  implant := if dark then "#0d9488" else "#20c997"
  other := if dark then "#a0a0a0" else "#6c757d"

/-- Dynamic lookup `(colors as any)[key]` over the palette's field names. -/
def colorsIndex (c : ChartColors) (key : String) : Option String :=
  match key with
  | "bg" => some c.bg
  | "card" => some c.card
  | "text" => some c.text
  | "textSecondary" => some c.textSecondary
  | "border" => some c.border
  | "accent" => some c.accent
  | "headerBg" => some c.headerBg
  | "inputBg" => some c.inputBg
  | "tabActive" => some c.tabActive
  | "tabInactive" => some c.tabInactive
  | "healthy" => some c.healthy
  | "missing" => some c.missing
  | "crown" => some c.crown
  | "filling" => some c.filling
  | "decay" => some c.decay
  | "rootCanal" => some c.rootCanal
  | "implant" => some c.implant
  | "other" => some c.other
  | _ => none

/-- The `CONDITION_MAP` table (`patient-chart.tsx` lines 53-62), mapping a
lowercased condition label to its display label and palette key. -/
def CONDITION_MAP : List (String × String × String) :=
  [("healthy", ("Healthy", "healthy")),
   ("missing", ("Missing", "missing")),
   ("crown", ("Crown", "crown")),
   ("filling", ("Filling", "filling")),
   ("decay", ("Decay", "decay")),
   ("root canal", ("Root Canal", "rootCanal")),
   ("rootcanal", ("Root Canal", "rootCanal")),
   ("implant", ("Implant", "implant"))]

/-- The `getConditionColor` helper (`patient-chart.tsx` lines 64-70). -/
def getConditionColor (condition : String) (c : ChartColors) : String :=
  let key :=
    match CONDITION_MAP.lookup (lowerStr condition) with
    | some e => e.2
    | none => "other"
  (colorsIndex c key).getD c.other

/-- One entry of `tooth_chart.teeth_with_conditions` as read by the widget. -/
structure ToothEntry where
  tooth_number : Int
  condition : Option String
  surface : Option String
  notes : Option String

/-- The `toothMap` memo (`patient-chart.tsx` lines 94-100): a `forEach` over
the entries assigning `m[t.tooth_number] = t`, so a later entry overwrites an
earlier one with the same tooth number.  `toothAssign` is one assignment. -/
def toothAssign (m : Int → Option ToothEntry) (t : ToothEntry) :
    Int → Option ToothEntry :=
  fun n => if n = t.tooth_number then some t else m n

/-- Accumulated assignments of the `forEach` loop. -/
def buildToothMap (entries : List ToothEntry) : Int → Option ToothEntry :=
  entries.foldl toothAssign (fun _ => none)

/-- Condition string computed by `renderTooth` (`patient-chart.tsx` line 163):
`toothMap[num]?.condition?.toLowerCase() ?? "healthy"`. -/
def renderedCondition (entries : List ToothEntry) (num : Int) : String :=
  match buildToothMap entries num with
  | some t =>
    match t.condition with
    | some s => lowerStr s
    | none => "healthy"
  | none => "healthy"

/-- Fill color of the tooth cell rendered by `renderTooth`
(`patient-chart.tsx` line 164). -/
def renderedToothColor (c : ChartColors) (entries : List ToothEntry) (num : Int) :
    String :=
  getConditionColor (renderedCondition entries num) c

/-- Modelled from the spec's wording for the refinement comparison: the fixed
condition-to-color table with case-insensitive matching over the label set
healthy, missing, crown, filling, decay, root canal/rootcanal, implant, and an
"other" fallback for every other label. -/
def specToothColor (c : ChartColors) (cond : String) : String :=
  let t := lowerStr cond
  if t = "healthy" then c.healthy
  else if t = "missing" then c.missing
  else if t = "crown" then c.crown
  else if t = "filling" then c.filling
  else if t = "decay" then c.decay
  else if t = "root canal" then c.rootCanal
  else if t = "rootcanal" then c.rootCanal
  else if t = "implant" then c.implant
  else c.other

/-- Characters of a string after character-wise lowercasing. -/
def lowerChars (s : String) : List Char := s.data.map Char.toLower

/-- Modelled from the spec's wording for the comparison in C6: string keys are
compared by case-insensitive lexicographic order (lexicographic order on the
lowercased character sequences), and the `age` key numerically with a missing
age read as 0. -/
def specLeAsc (k : SKey) (a b : Patient) : Prop :=
  match k with
  | .age =>
    (match a.age with | some n => n | none => 0) ≤
      (match b.age with | some n => n | none => 0)
  | .last_name => lowerChars a.last_name ≤ lowerChars b.last_name
  | .first_name => lowerChars a.first_name ≤ lowerChars b.first_name
  | .city => lowerChars (a.city.getD "") ≤ lowerChars (b.city.getD "")
  | .status => lowerChars (a.status.getD "") ≤ lowerChars (b.status.getD "")

/-- Two patients tie under the sort comparator (it returns 0 on them in both
orders). -/
def tieWith (k : SKey) (d : SDir) (x y : Patient) : Bool :=
  decide (sortLe k d x y) && decide (sortLe k d y x)

/-- The needle occurs as a contiguous substring of the haystack. -/
def strContainsSub (hay needle : String) : Prop :=
  ∃ l r, hay = l ++ needle ++ r

/-! ### Helper lemmas -/

theorem strData (a b : String) : (a ++ b).data = a.data ++ b.data := by
  cases a; cases b; rfl

theorem char_toNat_ofNat {m : Nat} (h : m.isValidChar) : (Char.ofNat m).toNat = m := by
  unfold Char.ofNat
  rw [dif_pos h]
  rfl

theorem toLower_idem (c : Char) : c.toLower.toLower = c.toLower := by
  unfold Char.toLower
  by_cases h : c.toNat ≥ 65 ∧ c.toNat ≤ 90
  · rw [if_pos h]
    have hv : (c.toNat + 32).isValidChar := Or.inl (by omega)
    rw [char_toNat_ofNat hv]
    rw [if_neg (by omega)]
  · rw [if_neg h, if_neg h]

theorem lowerStr_idem (s : String) : lowerStr (lowerStr s) = lowerStr s := by
  unfold lowerStr
  simp only [List.map_map]
  refine congrArg String.mk (List.map_congr_left ?h)
  intro c _
  exact toLower_idem c

theorem orderedInsert_of_forall_rel {α : Type} (r : α → α → Prop) [DecidableRel r]
    {x : α} {l : List α} (h : ∀ z ∈ l, r x z) : l.orderedInsert r x = x :: l := by
  cases l with
  | nil => rfl
  | cons b t => exact List.orderedInsert_of_le r t (h b (List.mem_cons_self b t))

theorem filter_orderedInsert {α : Type} (r : α → α → Prop) [DecidableRel r]
    [IsTrans α r] (p : α → Bool) (x : α) :
    ∀ l : List α, l.Sorted r →
      (l.orderedInsert r x).filter p =
        if p x then (l.filter p).orderedInsert r x else l.filter p := by
  intro l
  induction l with
  | nil =>
    intro _
    by_cases hp : p x <;> simp [List.orderedInsert, List.filter, hp]
  | cons y ys ih =>
    intro hs
    by_cases hxy : r x y
    · rw [List.orderedInsert_of_le r ys hxy]
      by_cases hp : p x
      · rw [if_pos hp]
        rw [List.filter_cons, if_pos hp]
        rw [orderedInsert_of_forall_rel]
        intro z hz
        have hz2 := List.mem_filter.mp hz
        rcases List.mem_cons.mp hz2.1 with h1 | h2
        · exact h1 ▸ hxy
        · exact IsTrans.trans x y z hxy (List.rel_of_sorted_cons hs z h2)
      · rw [if_neg hp, List.filter_cons, if_neg (by simpa using hp)]
    · rw [List.orderedInsert]
      rw [if_neg hxy]
      rw [List.filter_cons]
      by_cases hpy : p y
      · rw [if_pos hpy]
        rw [ih hs.of_cons]
        by_cases hp : p x
        · rw [if_pos hp, if_pos hp, List.filter_cons, if_pos hpy,
            List.orderedInsert, if_neg hxy]
        · rw [if_neg hp, if_neg hp, List.filter_cons, if_pos hpy]
      · rw [if_neg hpy]
        rw [ih hs.of_cons]
        by_cases hp : p x
        · rw [if_pos hp, if_pos hp, List.filter_cons, if_neg hpy]
        · rw [if_neg hp, if_neg hp, List.filter_cons, if_neg hpy]

theorem filter_insertionSort {α : Type} (r : α → α → Prop) [DecidableRel r]
    [IsTotal α r] [IsTrans α r] (p : α → Bool) (l : List α) :
    (l.insertionSort r).filter p = (l.filter p).insertionSort r := by
  induction l with
  | nil => rfl
  | cons x xs ih =>
    rw [List.insertionSort]
    rw [filter_orderedInsert r p x _ (List.sorted_insertionSort r xs)]
    rw [ih]
    rw [List.filter_cons]
    by_cases hp : p x
    · rw [if_pos hp, if_pos hp, List.insertionSort]
    · rw [if_neg hp, if_neg hp]

theorem reachPage_pos {ps p : Nat} (h : ReachPage ps p) : 1 ≤ p := by
  induction h with
  | init => exact le_refl 1
  | reset _ _ _ => exact le_refl 1
  | prev p n _ hlt _ => omega
  | next p n _ _ _ => omega

theorem noChartMsg_ne_fetch (m : String) : noChartMsg ≠ "Failed to fetch chart: " ++ m := by
  intro h
  have h2 := congrArg (fun s => s.data.head?) h
  simp [strData, noChartMsg] at h2

theorem noReportMsg_ne_fetch (m : String) : noReportMsg ≠ "Failed to fetch report: " ++ m := by
  intro h
  have h2 := congrArg (fun s => s.data.head?) h
  simp [strData, noReportMsg] at h2

/-! ### Claims -/

/-- C7 counterexample: all three entries of `TOOL_TIMEOUTS` are the same
30-minute value and every tool passes its own entry, so no report-generation
tool's configured timeout strictly exceeds the timeout used by any other
tool's invocation — there is no strictly ordered pair at all. -/
theorem timeouts_no_strict_pair :
    invokedTimeout "get-patients" = 1800000 ∧
    invokedTimeout "get-patient-chart" = 1800000 ∧
    invokedTimeout "get-reports" = 1800000 ∧
    ¬ ∃ x ∈ TOOL_TIMEOUTS, ∃ y ∈ TOOL_TIMEOUTS, x.2 > y.2 := by
  decide

/-- C7 (amended): the backend caller's timeout is per-tool configurable via
`TOOL_TIMEOUTS`, but all three tools — report-generation or not — are invoked
with the same 30-minute timeout, which strictly exceeds `callBackend`'s
5-minute default; the default is what any tool without an explicit entry would
receive. -/
theorem timeouts_uniform :
    invokedTimeout "get-patients" = 30 * 60000 ∧
    invokedTimeout "get-patient-chart" = 30 * 60000 ∧
    invokedTimeout "get-reports" = 30 * 60000 ∧
    callBackendDefaultTimeout = 5 * 60000 ∧
    callBackendDefaultTimeout < invokedTimeout "get-reports" ∧
    invokedTimeout "unknown-tool" = callBackendDefaultTimeout := by
  decide

/-- C3: for every page state reachable through the widgets' page-change
operations and every filtered result count `n` (which may have shrunk since
the page was set), the clamped page index `safePage` lies in
`[1, max 1 (ceil (n / pageSize))]`, for page size 10 (patient list) and 15
(report widget's account transactions table). -/
theorem pagination_clamp : ∀ p n : Nat,
    (ReachPage 10 p →
      1 ≤ safePage p n 10 ∧ safePage p n 10 ≤ max 1 ((n + 9) / 10)) ∧
    (ReachPage 15 p →
      1 ≤ safePage p n 15 ∧ safePage p n 15 ≤ max 1 ((n + 14) / 15)) := by
  intro p n
  constructor
  · intro h
    have h1 := reachPage_pos h
    unfold safePage totalPages
    omega
  · intro h
    have h1 := reachPage_pos h
    unfold safePage totalPages
    omega

/-- Witness for C3 at the initial page state and an empty result set. -/
theorem pagination_clamp_witness :
    (1 ≤ safePage 1 0 10 ∧ safePage 1 0 10 ≤ max 1 ((0 + 9) / 10)) ∧
    (1 ≤ safePage 1 0 15 ∧ safePage 1 0 15 ≤ max 1 ((0 + 14) / 15)) :=
  ⟨(pagination_clamp 1 0).1 ReachPage.init,
   (pagination_clamp 1 0).2 ReachPage.init⟩

/-- C1: on every successfully parsed (non-null) backend response whose
unwrapped body lacks the `patient_chart` (resp. `patient_report`) sub-object —
absent field or JSON null — the handler returns exactly the specific no-data
message, and that message is distinct from every generic exception-wrapping
message used for transport failures. -/
theorem missing_subobject_message : ∀ (name : String) (j : JVal),
    isNullJ j = false →
    ((jField (unwrapData j) "patient_chart" = none ∨
        jField (unwrapData j) "patient_chart" = some .null) →
      getPatientChartHandler name j = .errorOut noChartMsg) ∧
    ((jField (unwrapData j) "patient_report" = none ∨
        jField (unwrapData j) "patient_report" = some .null) →
      getReportsHandler name j = .errorOut noReportMsg) ∧
    (∀ m, noChartMsg ≠ "Failed to fetch chart: " ++ m) ∧
    (∀ m, noReportMsg ≠ "Failed to fetch report: " ++ m) := by
  intro name j hnull
  refine ⟨?hc, ?hr, noChartMsg_ne_fetch, noReportMsg_ne_fetch⟩
  case hc =>
    intro h
    unfold getPatientChartHandler
    rw [if_neg (by simp [hnull])]
    rcases h with h | h <;> simp [h, truthy]
  case hr =>
    intro h
    unfold getReportsHandler
    rw [if_neg (by simp [hnull])]
    rcases h with h | h <;> simp [h, truthy]

/-- Witness for C1 at the empty-object response. -/
theorem missing_subobject_message_witness :
    isNullJ (JVal.obj []) = false ∧
    getPatientChartHandler "Jane Doe" (JVal.obj []) = .errorOut noChartMsg ∧
    getReportsHandler "Jane Doe" (JVal.obj []) = .errorOut noReportMsg :=
  ⟨rfl,
   (missing_subobject_message "Jane Doe" (JVal.obj []) rfl).1 (Or.inl rfl),
   (missing_subobject_message "Jane Doe" (JVal.obj []) rfl).2.1 (Or.inl rfl)⟩


/-- C2: every backend response with HTTP status at least 400 makes each of the
three tools return an error whose message contains the status code. -/
theorem http_error_contains_status : ∀ (r : HttpResponse) (name : String),
    400 ≤ r.status →
    (∃ m, getPatientsTool r = .errorOut m ∧ strContainsSub m (toString r.status)) ∧
    (∃ m, getPatientChartTool name r = .errorOut m ∧
      strContainsSub m (toString r.status)) ∧
    (∃ m, getReportsTool name r = .errorOut m ∧
      strContainsSub m (toString r.status)) := by
  intro r name h
  have hcb : callBackend r =
      .error ("Backend returned " ++ toString r.status ++ ": " ++ r.statusText) := by
    unfold callBackend
    rw [if_neg (by omega)]
  refine ⟨⟨"Failed to fetch patients: " ++
      ("Backend returned " ++ toString r.status ++ ": " ++ r.statusText), ?e1, ?s1⟩,
    ⟨"Failed to fetch chart: " ++
      ("Backend returned " ++ toString r.status ++ ": " ++ r.statusText), ?e2, ?s2⟩,
    ⟨"Failed to fetch report: " ++
      ("Backend returned " ++ toString r.status ++ ": " ++ r.statusText), ?e3, ?s3⟩⟩
  case e1 => unfold getPatientsTool; rw [hcb]
  case s1 =>
    refine ⟨"Failed to fetch patients: " ++ "Backend returned ",
      ": " ++ r.statusText, ?_⟩
    simp only [String.append_assoc]
  case e2 => unfold getPatientChartTool; rw [hcb]
  case s2 =>
    refine ⟨"Failed to fetch chart: " ++ "Backend returned ",
      ": " ++ r.statusText, ?_⟩
    simp only [String.append_assoc]
  case e3 => unfold getReportsTool; rw [hcb]
  case s3 =>
    refine ⟨"Failed to fetch report: " ++ "Backend returned ",
      ": " ++ r.statusText, ?_⟩
    simp only [String.append_assoc]

/-- Witness for C2 at a concrete 404 response. -/
theorem http_error_contains_status_witness :
    400 ≤ (404 : Nat) ∧
    (∃ m, getPatientsTool ⟨404, "Not Found", none⟩ = .errorOut m ∧
      strContainsSub m (toString (404 : Nat))) :=
  ⟨by decide,
   (http_error_contains_status ⟨404, "Not Found", none⟩ "Jane Doe" (by decide)).1⟩

/-- C9: `get-patients` never returns a missing-sub-object error — on every
non-null parsed response it returns a widget payload; when the unwrapped body
lacks the `patients` field the payload carries an empty patient list, and when
`total_count` is also absent the summary text reads "Found 0 patient(s)". -/
theorem get_patients_no_missing_error : ∀ j : JVal,
    isNullJ j = false →
    (∃ props txt, getPatientsHandler j = .widgetOut props txt) ∧
    (jField (unwrapData j) "patients" = none →
      (∃ tc txt, getPatientsHandler j =
        .widgetOut [("patients", some (.arr [])), ("totalCount", tc)] txt) ∧
      (jField (unwrapData j) "total_count" = none →
        getPatientsHandler j =
          .widgetOut [("patients", some (.arr [])), ("totalCount", some (.num 0))]
            "Found 0 patient(s). Use the table to browse or click a patient for details.")) := by
  intro j hnull
  constructor
  · simp only [getPatientsHandler, hnull, Bool.false_eq_true, if_false]
    exact ⟨_, _, rfl⟩
  · intro hp
    constructor
    · simp only [getPatientsHandler, hnull, Bool.false_eq_true, if_false, hp,
        orEmptyArr]
      exact ⟨_, _, rfl⟩
    · intro ht
      simp only [getPatientsHandler, hnull, Bool.false_eq_true, if_false, hp, ht,
        orEmptyArr, jLength, List.length_nil]
      congr 1

/-- Witness for C9 at the empty-object response. -/
theorem get_patients_no_missing_error_witness :
    isNullJ (JVal.obj []) = false ∧
    getPatientsHandler (JVal.obj []) =
      .widgetOut [("patients", some (.arr [])), ("totalCount", some (.num 0))]
        "Found 0 patient(s). Use the table to browse or click a patient for details." :=
  ⟨rfl, ((get_patients_no_missing_error (JVal.obj []) rfl).2 rfl).2 rfl⟩

theorem getConditionColor_lowered (c : ChartColors) (s : String) :
    getConditionColor (lowerStr s) c = specToothColor c s := by
  unfold getConditionColor specToothColor
  rw [lowerStr_idem]
  by_cases h1 : lowerStr s = "healthy"
  · rw [h1]; rfl
  by_cases h2 : lowerStr s = "missing"
  · rw [h2]; rfl
  by_cases h3 : lowerStr s = "crown"
  · rw [h3]; rfl
  by_cases h4 : lowerStr s = "filling"
  · rw [h4]; rfl
  by_cases h5 : lowerStr s = "decay"
  · rw [h5]; rfl
  by_cases h6 : lowerStr s = "root canal"
  · rw [h6]; rfl
  by_cases h7 : lowerStr s = "rootcanal"
  · rw [h7]; rfl
  by_cases h8 : lowerStr s = "implant"
  · rw [h8]; rfl
  have hl : CONDITION_MAP.lookup (lowerStr s) = none := by
    simp [CONDITION_MAP, List.lookup, beq_eq_false_iff_ne.mpr h1,
      beq_eq_false_iff_ne.mpr h2, beq_eq_false_iff_ne.mpr h3,
      beq_eq_false_iff_ne.mpr h4, beq_eq_false_iff_ne.mpr h5,
      beq_eq_false_iff_ne.mpr h6, beq_eq_false_iff_ne.mpr h7,
      beq_eq_false_iff_ne.mpr h8]
  rw [hl, if_neg h1, if_neg h2, if_neg h3, if_neg h4, if_neg h5, if_neg h6,
    if_neg h7, if_neg h8]
  rfl

/-- C4: for every rendered tooth whose entry carries a condition string, the
rendered color equals the fixed condition-to-color table entry for that
condition matched case-insensitively, with conditions outside the label set
falling back to the "other" color (`specToothColor` is that table). -/
theorem tooth_color_table : ∀ (dark : Bool) (entries : List ToothEntry)
    (num : Int) (t : ToothEntry) (cond : String),
    buildToothMap entries num = some t →
    t.condition = some cond →
    renderedToothColor (useColorsChart dark) entries num =
      specToothColor (useColorsChart dark) cond := by
  intro dark entries num t cond hm hc
  unfold renderedToothColor renderedCondition
  simp only [hm, hc]
  exact getConditionColor_lowered (useColorsChart dark) cond

/-- Witness for C4 at a one-entry chart with an uppercase condition. -/
theorem tooth_color_table_witness :
    buildToothMap [⟨5, some "DECAY", none, none⟩] 5 =
      some ⟨5, some "DECAY", none, none⟩ ∧
    renderedToothColor (useColorsChart false) [⟨5, some "DECAY", none, none⟩] 5 =
      specToothColor (useColorsChart false) "DECAY" :=
  ⟨rfl,
   tooth_color_table false [⟨5, some "DECAY", none, none⟩] 5
     ⟨5, some "DECAY", none, none⟩ "DECAY" rfl rfl⟩

theorem toothMap_foldl_preserve (l : List ToothEntry)
    (m : Int → Option ToothEntry) (num : Int)
    (h : ∀ u ∈ l, u.tooth_number ≠ num) :
    (l.foldl toothAssign m) num = m num := by
  induction l generalizing m with
  | nil => rfl
  | cons t ts ih =>
    rw [List.foldl_cons]
    rw [ih _ (fun u hu => h u (List.mem_cons_of_mem t hu))]
    unfold toothAssign
    rw [if_neg (fun he => h t (List.mem_cons_self t ts) he.symm)]

theorem buildToothMap_eq_none {entries : List ToothEntry} {num : Int}
    (h : ∀ u ∈ entries, u.tooth_number ≠ num) :
    buildToothMap entries num = none := by
  unfold buildToothMap
  exact toothMap_foldl_preserve entries _ num h

theorem buildToothMap_last (l1 l2 : List ToothEntry) (t : ToothEntry) (num : Int)
    (ht : t.tooth_number = num) (h2 : ∀ u ∈ l2, u.tooth_number ≠ num) :
    buildToothMap (l1 ++ t :: l2) num = some t := by
  unfold buildToothMap
  rw [List.foldl_append, List.foldl_cons]
  rw [toothMap_foldl_preserve l2 _ num h2]
  unfold toothAssign
  rw [if_pos ht.symm]

/-- C8: a tooth number with no entry in `teeth_with_conditions` renders with
the "healthy" condition and the healthy color (which differs from both the
"other" fallback and the "missing" color); and when several entries share a
tooth number, the last such entry determines the rendered condition. -/
theorem tooth_default_healthy_last_wins :
    ∀ (dark : Bool) (entries l1 l2 : List ToothEntry) (t : ToothEntry) (num : Int),
    ((∀ u ∈ entries, u.tooth_number ≠ num) →
      renderedCondition entries num = "healthy" ∧
      renderedToothColor (useColorsChart dark) entries num =
        (useColorsChart dark).healthy ∧
      (useColorsChart dark).healthy ≠ (useColorsChart dark).other ∧
      (useColorsChart dark).healthy ≠ (useColorsChart dark).missing) ∧
    (t.tooth_number = num → (∀ u ∈ l2, u.tooth_number ≠ num) →
      buildToothMap (l1 ++ t :: l2) num = some t ∧
      renderedCondition (l1 ++ t :: l2) num =
        (match t.condition with | some s => lowerStr s | none => "healthy")) := by
  intro dark entries l1 l2 t num
  constructor
  · intro h
    have hm := buildToothMap_eq_none h
    have hrc : renderedCondition entries num = "healthy" := by
      unfold renderedCondition; rw [hm]
    refine ⟨hrc, ?_, ?_, ?_⟩
    · unfold renderedToothColor
      rw [hrc]
      rfl
    · cases dark <;> decide
    · cases dark <;> decide
  · intro ht h2
    have hm := buildToothMap_last l1 l2 t num ht h2
    refine ⟨hm, ?_⟩
    unfold renderedCondition
    rw [hm]

/-- Witness for C8: an absent tooth renders healthy; a trailing duplicate-free
entry is the one looked up. -/
theorem tooth_default_healthy_last_wins_witness :
    renderedCondition [] 5 = "healthy" ∧
    buildToothMap ([] ++ ⟨5, some "crown", none, none⟩ :: []) 5 =
      some ⟨5, some "crown", none, none⟩ :=
  ⟨((tooth_default_healthy_last_wins false [] [] []
      ⟨5, some "crown", none, none⟩ 5).1 (by simp)).1,
   ((tooth_default_healthy_last_wins false [] [] []
      ⟨5, some "crown", none, none⟩ 5).2 rfl (by simp)).1⟩

theorem sortLeAsc_iff_spec (k : SKey) : ∀ a b, sortLeAsc k a b ↔ specLeAsc k a b := by
  intro a b
  cases k with
  | age =>
    cases ha : a.age <;> cases hb : b.age <;>
      simp [sortLeAsc, specLeAsc, ageNum, ha, hb]
  | last_name =>
    simp only [sortLeAsc, specLeAsc, keyStr]
    rw [String.le_iff_toList_le]
    exact Iff.rfl
  | first_name =>
    simp only [sortLeAsc, specLeAsc, keyStr]
    rw [String.le_iff_toList_le]
    exact Iff.rfl
  | city =>
    simp only [sortLeAsc, specLeAsc, keyStr]
    rw [String.le_iff_toList_le]
    exact Iff.rfl
  | status =>
    simp only [sortLeAsc, specLeAsc, keyStr]
    rw [String.le_iff_toList_le]
    exact Iff.rfl

/-- C5: the patient-list filter is idempotent, and filtering commutes with the
(stable) sort on the nose — so the visible set agrees and even the order
agrees, which in particular bounds any difference to tied elements. -/
theorem filter_idem_sort_commute : ∀ (patients : List Patient) (search : String)
    (k : SKey) (d : SDir),
    filteredList (filteredList patients search) search =
      filteredList patients search ∧
    sortedList k d (filteredList patients search) =
      filteredList (sortedList k d patients) search := by
  intro ps s k d
  constructor
  · unfold filteredList
    rw [List.filter_filter]
    simp only [Bool.and_self]
  · unfold sortedList filteredList
    exact (filter_insertionSort (sortLe k d) _ ps).symm

/-- C6: the sort comparator orders string keys case-insensitively and the age
key numerically (`specLeAsc` spells out that order), the sort output is sorted
under it, ties keep their pre-sort relative order (the sorted list restricted
to any tie class is the original list so restricted), and clicking the current
key flips the direction while clicking a different key resets to ascending. -/
theorem patient_sort_spec : ∀ (k k2 : SKey) (d : SDir) (l : List Patient)
    (x : Patient), k ≠ k2 →
    (∀ a b, sortLeAsc k a b ↔ specLeAsc k a b) ∧
    List.Sorted (sortLe k d) (sortedList k d l) ∧
    (sortedList k d l).filter (tieWith k d x) = l.filter (tieWith k d x) ∧
    toggleSort (k, d) k = (k, flipDir d) ∧
    toggleSort (k, d) k2 = (k2, .asc) := by
  intro k k2 d l x hkk
  refine ⟨sortLeAsc_iff_spec k, List.sorted_insertionSort _ _, ?stab, ?t1, ?t2⟩
  case stab =>
    unfold sortedList
    rw [filter_insertionSort (sortLe k d) (tieWith k d x) l]
    apply List.Sorted.insertionSort_eq
    apply List.pairwise_of_forall_mem_list
    intro a ha b hb
    have ha2 := (List.mem_filter.mp ha).2
    have hb2 := (List.mem_filter.mp hb).2
    unfold tieWith at ha2 hb2
    rw [Bool.and_eq_true, decide_eq_true_eq, decide_eq_true_eq] at ha2 hb2
    exact IsTrans.trans a x b ha2.2 hb2.1
  case t1 => simp [toggleSort]
  case t2 => simp [toggleSort, hkk]

/-- Witness for C6 with distinct keys. -/
theorem patient_sort_spec_witness :
    SKey.last_name ≠ SKey.age ∧
    toggleSort (SKey.last_name, SDir.asc) SKey.age = (SKey.age, SDir.asc) :=
  ⟨by decide,
   (patient_sort_spec SKey.last_name SKey.age SDir.asc []
     ⟨none, "", "", none, none, none, none, none, none, none⟩
     (by decide)).2.2.2.2⟩

/-- C10: a null or absent age is compared as 0, so in the ascending age sort
the output never places a positive-aged patient before an ageless one: for
every earlier-later pair, either the earlier patient's effective age is at
most 0 or the later patient has an age. -/
theorem ageless_sort_first : ∀ l : List Patient,
    (∀ a b, sortLe .age .asc a b ↔
      (match a.age with | some n => n | none => 0) ≤
        (match b.age with | some n => n | none => 0)) ∧
    (sortedList .age .asc l).Pairwise
      (fun x y => ageNum x ≤ 0 ∨ y.age.isSome = true) := by
  intro l
  constructor
  · intro a b
    cases ha : a.age <;> cases hb : b.age <;>
      simp [sortLe, sortLeAsc, ageNum, ha, hb]
  · have hs := List.sorted_insertionSort (sortLe SKey.age SDir.asc) l
    refine List.Pairwise.imp ?_ hs
    intro x y hxy
    have h2 : ageNum x ≤ ageNum y := hxy
    rcases hy : y.age with _ | n
    · left
      have h0 : ageNum y = 0 := by unfold ageNum; rw [hy]; rfl
      omega
    · right
      rfl
